import Mathlib

/-!
Verification of the gameplay module of a grid-based tower-defense game
(`src/lib.rs`).  The module is shallowly embedded: `f32` values are
modelled as exact rationals (`ℚ`) except for the enemy-movement geometry,
which needs a square root and is modelled over `ℝ`; `usize`/`isize`
become `ℕ`/`ℤ` (the resource counter is modelled as `ℤ` so that the
no-underflow invariant is expressible); the ECS component stores become
association lists keyed by entity id (`ℕ`); engine entity creation is an
explicit fresh-id counter threaded through the state.
-/

namespace LD34

/-- Constants from `lib.rs` (f32 literals modelled as exact rationals). -/
def CELL_SIZE : ℚ := 5
def MOUSE_SPEED : ℚ := 1/10
def BASE_SCALE_PER_LEVEL : ℚ := 1/10
def CAMERA_BASE_OFFSET : ℚ := 30
def CAMERA_OFFSET_PER_CURSOR_OFFSET : ℚ := 5
def CAMERA_XY_MOVE_SPEED : ℚ := 5
def CAMERA_Z_MOVE_SPEED : ℚ := 2
def TURRET_FIRE_INTERVAL : ℚ := 1
def MIN_ENEMY_COUNT : ℕ := 5
def ENEMY_SPAWN_DELAY : ℚ := 1
def ENEMY_MOVE_SPEED : ℚ := 1

/-- A world-space point (gunship `Point`), components modelled as `ℚ`. -/
structure Point where
  x : ℚ
  y : ℚ
  z : ℚ
deriving DecidableEq, Repr

/-- Component-wise addition of a vector onto a point (gunship `+=` / `translate`). -/
def Point.add (p : Point) (v : Point) : Point :=
  ⟨p.x + v.x, p.y + v.y, p.z + v.z⟩

/-- `GridPos` from `lib.rs`: a discrete cell coordinate (`isize` fields as `ℤ`). -/
structure GridPos where
  x : ℤ
  y : ℤ
deriving DecidableEq, Repr

namespace GridPos

/-- `GridPos::new`. -/
def new (x y : ℤ) : GridPos := ⟨x, y⟩

/-- `GridPos::from_world`: floor each coordinate divided by `CELL_SIZE`
(`Rat.floor` is the computable floor on `ℚ`). -/
def from_world (point : Point) : GridPos :=
  ⟨(point.x / CELL_SIZE).floor, (point.y / CELL_SIZE).floor⟩

/-- `GridPos::to_world`: the cell's minimum corner. -/
def to_world (g : GridPos) : Point :=
  ⟨(g.x : ℚ) * CELL_SIZE, (g.y : ℚ) * CELL_SIZE, 0⟩

/-- `GridPos::cell_center`: the minimum corner plus half a cell in x and y. -/
def cell_center (g : GridPos) : Point :=
  ⟨(g.x : ℚ) * CELL_SIZE + CELL_SIZE * (1/2),
   (g.y : ℚ) * CELL_SIZE + CELL_SIZE * (1/2),
   0⟩

/-- `impl Sub for GridPos`: component-wise integer subtraction. -/
def sub (a b : GridPos) : GridPos :=
  ⟨a.x - b.x, a.y - b.y⟩

end GridPos

/-- Association-list finite map used to model the ECS component stores and
the `HashMap<GridPos, Entity>` grid. -/
def alistFind {κ α : Type} [DecidableEq κ] (k : κ) : List (κ × α) → Option α
  | [] => none
  | (k', v) :: rest => if k' = k then some v else alistFind k rest

/-- Insert-or-replace, modelling `HashMap::insert` / component `assign`. -/
def alistInsert {κ α : Type} [DecidableEq κ] (k : κ) (v : α) :
    List (κ × α) → List (κ × α)
  | [] => [(k, v)]
  | (k', v') :: rest =>
      if k' = k then (k, v) :: rest else (k', v') :: alistInsert k v rest

/-- In-place mutation through a `get_mut` handle: apply `f` to the entry at
`k` when present, leave the list unchanged otherwise (a missing component at
a `get_mut` site is a fatal invariant violation per the error-handling
design; crashed executions are outside the state space modelled here). -/
def alistAdjust {κ α : Type} [DecidableEq κ] (k : κ) (f : α → α) :
    List (κ × α) → List (κ × α)
  | [] => []
  | (k', v) :: rest =>
      if k' = k then (k, f v) :: rest else (k', v) :: alistAdjust k f rest

/-- Callbacks registered with the engine's alarm and collision facilities
(`spawn_enemy` and `fire_turret` function pointers in `lib.rs`). -/
inductive Callback where
  | spawnEnemy
  | fireTurret
deriving DecidableEq, Repr

/-- A scheduled alarm entry of the engine's `AlarmManager`: `assign` creates a
one-shot alarm, `assign_repeating` a repeating one; the returned `AlarmId` is
modelled as the `id` field drawn from a fresh-id counter. -/
structure Alarm where
  id : ℕ
  entity : ℕ
  delay : ℚ
  repeating : Bool
  callback : Callback
deriving DecidableEq, Repr

/-- `PlayerUnit` from `lib.rs` (`usize` levels as `ℕ`, `AlarmId` as `ℕ`,
`Option<Entity>` as `Option ℕ`). -/
inductive PlayerUnit where
  | base (level : ℕ)
  | turret (level : ℕ) (shoot_alarm : ℕ) (target : Option ℕ)
deriving DecidableEq, Repr

/-- The transform component: the fields of the engine's `Transform` that
`lib.rs` reads or writes (`set_position`, `set_scale`, `position`,
`translate`). -/
structure Transform where
  position : Point
  scale : Point
deriving DecidableEq, Repr

/-- `GameData` from `lib.rs`.  `resource_count` is `usize` in the source; it
is modelled as `ℤ` so that the never-negative invariant is a provable
statement rather than an artifact of truncating subtraction. -/
structure GameData where
  grid : List (GridPos × ℕ)
  selected : GridPos
  cursor : Point
  resource_count : ℤ
deriving DecidableEq, Repr

/-- The game-relevant engine scene: the singleton `GameData`, the component
stores `lib.rs` touches (transforms, player units, meshes, alarms, the
`Enemy` marker store as a list of entity ids, the camera store as a list of
camera entity ids), the list of destroyed entities, and fresh-id counters
for `create_entity` and alarm ids. -/
structure Scene where
  game : GameData
  transforms : List (ℕ × Transform)
  units : List (ℕ × PlayerUnit)
  meshes : List (ℕ × String)
  alarms : List Alarm
  enemies : List ℕ
  cameras : List ℕ
  destroyed : List ℕ
  nextEntity : ℕ
  nextAlarmId : ℕ
deriving DecidableEq, Repr

/-- Per-frame input snapshot: `mouse_delta()` and the two
`mouse_button_pressed` flags read by `manager_update`. -/
structure Input where
  mouse_dx : ℚ
  mouse_dy : ℚ
  mouse0 : Bool
  mouse1 : Bool
deriving DecidableEq, Repr

/-- First block of `manager_update`: accumulate the mouse delta into the
cursor (`cursor += (dx*MOUSE_SPEED, -dy*MOUSE_SPEED, 0)`) and re-derive the
selected cell.  (The subsequent debug-draw of the selected cell only talks
to the external debug-draw collaborator and changes no game state.) -/
def cursorStep (s : Scene) (inp : Input) : Scene :=
  let cursor := s.game.cursor.add
    ⟨inp.mouse_dx * MOUSE_SPEED, -inp.mouse_dy * MOUSE_SPEED, 0⟩
  { s with game :=
    { s.game with cursor := cursor, selected := GridPos.from_world cursor } }

/-- Primary-button block of `manager_update` (turret placement): guarded by
`resource_count > 0 && mouse_button_pressed(0)` and by the selected cell not
being a key of `grid`; on success it creates an entity, assigns its
transform (position = cell center, scale = (0.5, 0.5, 1.0)), mesh and
repeating fire alarm, inserts `PlayerUnit::Turret{level: 1, shoot_alarm,
target: None}`, registers the cell in `grid`, and decrements
`resource_count`. -/
def placementStep (s : Scene) (inp : Input) : Scene :=
  if 0 < s.game.resource_count ∧ inp.mouse0 = true then
    if (alistFind s.game.selected s.game.grid).isSome then s
    else
      let unit_entity := s.nextEntity
      let alarm_id := s.nextAlarmId
      { s with
        nextEntity := s.nextEntity + 1
        nextAlarmId := s.nextAlarmId + 1
        transforms := alistInsert unit_entity
          { position := s.game.selected.cell_center, scale := ⟨1/2, 1/2, 1⟩ }
          s.transforms
        meshes := alistInsert unit_entity "pCube1-lib" s.meshes
        alarms := s.alarms ++
          [⟨alarm_id, unit_entity, TURRET_FIRE_INTERVAL, true, Callback.fireTurret⟩]
        units := alistInsert unit_entity (PlayerUnit.turret 1 alarm_id none) s.units
        game := { s.game with
          grid := alistInsert s.game.selected unit_entity s.game.grid
          resource_count := s.game.resource_count - 1 } }
  else s

/-- The uniform scale a Base of level `level` is given on upgrade:
`level * CELL_SIZE * BASE_SCALE_PER_LEVEL` on all three axes. -/
def baseScale (level : ℕ) : Point :=
  ⟨(level : ℚ) * CELL_SIZE * BASE_SCALE_PER_LEVEL,
   (level : ℚ) * CELL_SIZE * BASE_SCALE_PER_LEVEL,
   (level : ℚ) * CELL_SIZE * BASE_SCALE_PER_LEVEL⟩

/-- Secondary-button block of `manager_update` (unit upgrade): guarded by
`resource_count > 0 && mouse_button_pressed(1)` and by the selected cell
having an occupant.  A `Base` gets `level += 1`, `resource_count -= 1`, and
its transform rescaled to `baseScale (level + 1)`; a `Turret` gets
`level += 1` and `resource_count -= 1`.  The source's
`unit_manager.get_mut(entity).unwrap()` on a grid occupant with no
`PlayerUnit` is a fatal invariant violation (error-handling design §7);
crashed executions carry no resulting state and the `none` branch is left
as the unchanged scene. -/
def upgradeStep (s : Scene) (inp : Input) : Scene :=
  if 0 < s.game.resource_count ∧ inp.mouse1 = true then
    match alistFind s.game.selected s.game.grid with
    | some entity =>
      match alistFind entity s.units with
      | some (PlayerUnit.base level) =>
          { s with
            units := alistInsert entity (PlayerUnit.base (level + 1)) s.units
            transforms := alistAdjust entity
              (fun t => { t with scale := baseScale (level + 1) }) s.transforms
            game := { s.game with resource_count := s.game.resource_count - 1 } }
      | some (PlayerUnit.turret level shoot_alarm target) =>
          { s with
            units := alistInsert entity
              (PlayerUnit.turret (level + 1) shoot_alarm target) s.units
            game := { s.game with resource_count := s.game.resource_count - 1 } }
      | none => s
    | none => s
  else s

/-- Modelled from the spec: the engine's `lerp` primitive (external gunship
code, not in this repository) with contract "moves `frac` of the remaining
distance per call". -/
def lerp (frac a b : ℚ) : ℚ := a + (b - a) * frac

/-- Camera-follow body of `manager_update` for one camera entity: lerp the
camera's x,y toward the selected cell's center at `CAMERA_XY_MOVE_SPEED *
delta` and its z toward `CAMERA_BASE_OFFSET + manhattan(origin - selected) *
CAMERA_OFFSET_PER_CURSOR_OFFSET` at `CAMERA_Z_MOVE_SPEED * delta`.  A
camera without a transform would be a fatal `get_mut` fault; that branch is
left as the unchanged scene. -/
def cameraApply (delta : ℚ) (s : Scene) (camera_entity : ℕ) : Scene :=
  match alistFind camera_entity s.transforms with
  | none => s
  | some t =>
      let camera_pos := t.position
      let grid_center := s.game.selected.cell_center
      let camera_x := lerp (CAMERA_XY_MOVE_SPEED * delta) camera_pos.x grid_center.x
      let camera_y := lerp (CAMERA_XY_MOVE_SPEED * delta) camera_pos.y grid_center.y
      let cursor_offset := GridPos.sub (GridPos.new 0 0) s.game.selected
      let camera_z := lerp (CAMERA_Z_MOVE_SPEED * delta) camera_pos.z
        (CAMERA_BASE_OFFSET +
          ((|cursor_offset.x| + |cursor_offset.y| : ℤ) : ℚ) *
            CAMERA_OFFSET_PER_CURSOR_OFFSET)
      let setPos := fun t0 : Transform =>
        { t0 with position := ⟨camera_x, camera_y, camera_z⟩ }
      { s with transforms := alistAdjust camera_entity setPos s.transforms }

/-- Iteration of the camera-follow block over the camera store. -/
def cameraFold (delta : ℚ) : List ℕ → Scene → Scene
  | [], s => s
  | cam :: rest, s => cameraFold delta rest (cameraApply delta s cam)

/-- Camera-follow block of `manager_update`: apply the body to every camera
entity in the camera store. -/
def cameraStep (s : Scene) (delta : ℚ) : Scene := cameraFold delta s.cameras s

/-- `manager_update` from `lib.rs`: cursor/selection update, turret
placement on primary press, unit upgrade on secondary press, then camera
follow, in source order. -/
def manager_update (s : Scene) (inp : Input) (delta : ℚ) : Scene :=
  cameraStep (upgradeStep (placementStep (cursorStep s inp) inp) inp) delta

/-- `fire_turret` from `lib.rs`: the body only acquires store handles and
reads the turret's `PlayerUnit` component (`unit_manager.get_mut`); the
firing logic is an unimplemented stub, so no state is touched. -/
def fire_turret (s : Scene) (turret_entity : ℕ) : Scene :=
  let _turret := alistFind turret_entity s.units
  s

/-- `scene.destroy_entity`: the engine removes the entity and the components
keyed to it; the entity id is recorded as destroyed. -/
def destroyEntity (s : Scene) (entity : ℕ) : Scene :=
  { s with
    transforms := s.transforms.filter (fun p => p.1 != entity)
    units := s.units.filter (fun p => p.1 != entity)
    meshes := s.meshes.filter (fun p => p.1 != entity)
    enemies := s.enemies.erase entity
    cameras := s.cameras.erase entity
    destroyed := s.destroyed ++ [entity] }

/-- Body of `on_enemy_collision` once a non-enemy collider is found: destroy
the colliding enemy entity, then, if the resulting enemy count is below
`MIN_ENEMY_COUNT`, create a fresh entity and schedule one one-shot
`spawn_enemy` alarm after `ENEMY_SPAWN_DELAY` on it. -/
def destroyAndRespawn (s : Scene) (enemy_entity : ℕ) : Scene :=
  let s1 := destroyEntity s enemy_entity
  if s1.enemies.length < MIN_ENEMY_COUNT then
    { s1 with
      alarms := s1.alarms ++
        [⟨s1.nextAlarmId, s1.nextEntity, ENEMY_SPAWN_DELAY, false, Callback.spawnEnemy⟩]
      nextEntity := s1.nextEntity + 1
      nextAlarmId := s1.nextAlarmId + 1 }
  else s1

/-- `on_enemy_collision` from `lib.rs`: walk the `others` list, `continue`
past any other entity that carries an `Enemy` component, and on the first
one that does not, run `destroyAndRespawn` and `return` (no further entries
examined). -/
def on_enemy_collision (s : Scene) (enemy_entity : ℕ) : List ℕ → Scene
  | [] => s
  | other :: rest =>
      if s.enemies.contains other then on_enemy_collision s enemy_entity rest
      else destroyAndRespawn s enemy_entity

/-- A world-space point for the enemy-movement geometry.  Components are `ℝ`
because normalization divides by a square-root magnitude. -/
structure PointR where
  x : ℝ
  y : ℝ
  z : ℝ

/-- Component-wise subtraction (gunship `Point - Point = Vector3`). -/
def PointR.sub (a b : PointR) : PointR := ⟨a.x - b.x, a.y - b.y, a.z - b.z⟩

/-- Component-wise addition (gunship `Transform::translate`). -/
def PointR.add (a b : PointR) : PointR := ⟨a.x + b.x, a.y + b.y, a.z + b.z⟩

/-- Scalar multiple (gunship `Vector3 * f32`). -/
def PointR.smul (c : ℝ) (v : PointR) : PointR := ⟨c * v.x, c * v.y, c * v.z⟩

/-- The zero vector. -/
def PointR.zero : PointR := ⟨0, 0, 0⟩

/-- Euclidean magnitude of a vector. -/
noncomputable def PointR.magnitude (v : PointR) : ℝ :=
  Real.sqrt (v.x ^ 2 + v.y ^ 2 + v.z ^ 2)

/-- Modelled from the spec: gunship's `Vector3::normalized` (external engine
code, not in this repository), which scales the vector to unit length and
fails safe to the zero vector when the magnitude is exactly zero. -/
noncomputable def PointR.normalized (v : PointR) : PointR :=
  if v.magnitude = 0 then PointR.zero else PointR.smul (1 / v.magnitude) v

/-- Embed the rational grid geometry into the real-valued geometry. -/
def toR (p : Point) : PointR := ⟨(p.x : ℝ), (p.y : ℝ), (p.z : ℝ)⟩

/-- Loop body of `enemy_update` for one enemy: `move_dir` is the vector from
the enemy's position to the base cell's center (`GridPos::new(0,
0).cell_center()`), normalized; the enemy is translated by `move_dir *
ENEMY_MOVE_SPEED * delta`. -/
noncomputable def enemyMoveStep (delta : ℝ) (pos : PointR) : PointR :=
  let move_dir := PointR.sub (toR (GridPos.cell_center (GridPos.new 0 0))) pos
  let move_dir := move_dir.normalized
  pos.add (PointR.smul ((ENEMY_MOVE_SPEED : ℝ) * delta) move_dir)

/-- `enemy_update` from `lib.rs`: every entity with an `Enemy` component has
the loop body applied to its transform position. -/
noncomputable def enemy_update (delta : ℝ) (enemyPositions : List PointR) :
    List PointR :=
  enemyPositions.map (enemyMoveStep delta)

/-- A concrete collision scene: two live enemies (ids 1 and 2), empty stores
otherwise. -/
def sampleCollisionScene : Scene :=
  { game := { grid := [], selected := ⟨0, 0⟩, cursor := ⟨0, 0, 0⟩,
              resource_count := 10 }
    transforms := []
    units := []
    meshes := []
    alarms := []
    enemies := [1, 2]
    cameras := []
    destroyed := []
    nextEntity := 10
    nextAlarmId := 3 }

/-- Projection of a scene onto everything except the transform store; the
camera-follow block only writes transforms, so it fixes this projection. -/
def sceneSansTransforms (s : Scene) :=
  (s.game, s.units, s.meshes, s.alarms, s.enemies, s.cameras, s.destroyed,
   s.nextEntity, s.nextAlarmId)

/-- The transform given to the main base by `scene_setup`. -/
def baseTransform : Transform :=
  { position := ⟨5/2, 5/2, 0⟩, scale := ⟨1/2, 1/2, 1/2⟩ }

/-- A concrete scene mirroring `scene_setup`: the level-1 base (entity 3) at
cell (0,0) and ten resources. -/
def baseScene : Scene :=
  { game := { grid := [(⟨0, 0⟩, 3)], selected := ⟨0, 0⟩, cursor := ⟨0, 0, 0⟩,
              resource_count := 10 }
    transforms := [(3, baseTransform)]
    units := [(3, PlayerUnit.base 1)]
    meshes := []
    alarms := []
    enemies := []
    cameras := []
    destroyed := []
    nextEntity := 4
    nextAlarmId := 0 }

/-- Input: no mouse motion, primary button pressed. -/
def clickInput : Input := ⟨0, 0, true, false⟩

/-- Input: no mouse motion, secondary button pressed. -/
def upgradeInput : Input := ⟨0, 0, false, true⟩

/-- Input: no mouse motion, both buttons pressed. -/
def bothInput : Input := ⟨0, 0, true, true⟩

/-- `baseScene` with the resource counter exhausted. -/
def brokeScene : Scene :=
  { baseScene with game := { baseScene.game with resource_count := 0 } }

/-- `baseScene` with an empty grid and a single resource left. -/
def lastCoinScene : Scene :=
  { baseScene with game :=
    { baseScene.game with grid := [], resource_count := 1 } }


theorem alistFind_insert_self {κ α : Type} [DecidableEq κ] (k : κ) (v : α)
    (l : List (κ × α)) : alistFind k (alistInsert k v l) = some v := by
  induction l with
  | nil => simp [alistInsert, alistFind]
  | cons hd tl ih =>
      obtain ⟨k', v'⟩ := hd
      by_cases h : k' = k
      · simp [alistInsert, alistFind, h]
      · simp [alistInsert, alistFind, h, ih]

theorem alistFind_insert_ne {κ α : Type} [DecidableEq κ] {k k' : κ} (v : α)
    (l : List (κ × α)) (h : k' ≠ k) :
    alistFind k' (alistInsert k v l) = alistFind k' l := by
  have hk : ¬k = k' := fun h' => h h'.symm
  induction l with
  | nil => simp [alistInsert, alistFind, hk]
  | cons hd tl ih =>
      obtain ⟨k₀, v₀⟩ := hd
      by_cases h₀ : k₀ = k
      · subst h₀
        simp [alistInsert, alistFind, hk]
      · simp only [alistInsert, alistFind, if_neg h₀]
        by_cases h₁ : k₀ = k'
        · simp [alistFind, h₁]
        · simp [alistFind, h₁, ih]

theorem alistFind_adjust_self {κ α : Type} [DecidableEq κ] (k : κ) (f : α → α)
    (l : List (κ × α)) :
    alistFind k (alistAdjust k f l) = (alistFind k l).map f := by
  induction l with
  | nil => simp [alistAdjust, alistFind]
  | cons hd tl ih =>
      obtain ⟨k', v⟩ := hd
      by_cases h : k' = k
      · simp [alistAdjust, alistFind, h]
      · simp [alistAdjust, alistFind, h, ih]

/-- `Rat.floor` agrees with the floor of the `FloorRing` structure on `ℚ`. -/
theorem ratFloor_eq_intFloor (q : ℚ) : q.floor = ⌊q⌋ := by
  rw [Rat.floor_def', Rat.floor_def]

/-- C7 helper: re-flooring a cell's own corner recovers the cell coordinate. -/
theorem floor_corner_div (n : ℤ) : (((n : ℚ) * CELL_SIZE) / CELL_SIZE).floor = n := by
  have h5 : (CELL_SIZE : ℚ) ≠ 0 := by norm_num [CELL_SIZE]
  rw [ratFloor_eq_intFloor, mul_div_assoc, div_self h5, mul_one, Int.floor_intCast]

/-- If some entry of `others` is not an enemy, the collision handler ends in
`destroyAndRespawn`, whatever the order of entries. -/
theorem collision_hits (s : Scene) (enemy_entity : ℕ) (others : List ℕ)
    (h : ∃ o ∈ others, s.enemies.contains o = false) :
    on_enemy_collision s enemy_entity others = destroyAndRespawn s enemy_entity := by
  induction others with
  | nil => simp at h
  | cons o rest ih =>
      by_cases hc : s.enemies.contains o = true
      · have hmem : o ∈ s.enemies := by simpa using hc
        have hrest : ∃ o' ∈ rest, s.enemies.contains o' = false := by
          rcases h with ⟨o', ho', hco'⟩
          rcases List.mem_cons.mp ho' with h1 | h1
          · subst h1; rw [hc] at hco'; exact absurd hco' (by simp)
          · exact ⟨o', h1, hco'⟩
        simp [on_enemy_collision, hmem, ih hrest]
      · have hnm : o ∉ s.enemies := by simpa using hc
        simp [on_enemy_collision, hnm]

/-- **C9.** `fire_turret` creates, destroys and mutates nothing: the
callback only acquires store handles and reads the turret component, so the
whole game state is returned unchanged. -/
theorem fire_turret_state_unchanged (s : Scene) (turret_entity : ℕ) :
    fire_turret s turret_entity = s := rfl

/-- **C1.** For every collision event, `on_enemy_collision` skips every
other entity carrying an `Enemy` component and fires `destroyAndRespawn`
(destroying the colliding enemy) exactly when the list has a non-enemy
entry, examining nothing past the first such entry: the result is fully
determined by `List.find?` of the first non-enemy, regardless of where
enemy entries appear in the list. -/
theorem on_enemy_collision_first_match (s : Scene) (enemy_entity : ℕ)
    (others : List ℕ) :
    on_enemy_collision s enemy_entity others =
      match others.find? (fun o => !(s.enemies.contains o)) with
      | some _ => destroyAndRespawn s enemy_entity
      | none => s := by
  induction others with
  | nil => rfl
  | cons o rest ih =>
      by_cases hc : s.enemies.contains o = true
      · have hmem : o ∈ s.enemies := by simpa using hc
        rw [List.find?_cons_of_neg _ (by simpa using hmem)]
        rw [← ih]
        simp [on_enemy_collision, hmem]
      · have hc' : s.enemies.contains o = false := by simpa using hc
        have hnm : o ∉ s.enemies := by simpa using hc
        rw [List.find?_cons_of_pos _ (by simpa using hnm)]
        simp [on_enemy_collision, hnm]

/-- **C2.** When a collision destroys the enemy (some non-enemy entry
exists), the handler appends exactly one one-shot `spawn_enemy` alarm if
the resulting enemy count (the store after erasing the destroyed enemy) is
below `MIN_ENEMY_COUNT`, and appends no alarm otherwise. -/
theorem on_enemy_collision_spawn (s : Scene) (enemy_entity : ℕ)
    (others : List ℕ)
    (h : ∃ o ∈ others, s.enemies.contains o = false) :
    (((s.enemies.erase enemy_entity).length < MIN_ENEMY_COUNT) →
        (on_enemy_collision s enemy_entity others).alarms =
          s.alarms ++
            [⟨s.nextAlarmId, s.nextEntity, ENEMY_SPAWN_DELAY, false,
              Callback.spawnEnemy⟩])
    ∧ (¬((s.enemies.erase enemy_entity).length < MIN_ENEMY_COUNT) →
        (on_enemy_collision s enemy_entity others).alarms = s.alarms) := by
  rw [collision_hits s enemy_entity others h]
  constructor <;> intro hcnt <;>
    simp [destroyAndRespawn, destroyEntity, hcnt]

/-- Witness for C2: enemy 1 collides with the non-enemy entity 7; the
resulting enemy count (1) is below the floor, so exactly one one-shot
spawn alarm is appended. -/
theorem on_enemy_collision_spawn_witness :
    (on_enemy_collision sampleCollisionScene 1 [7]).alarms =
      sampleCollisionScene.alarms ++
        [⟨sampleCollisionScene.nextAlarmId, sampleCollisionScene.nextEntity,
          ENEMY_SPAWN_DELAY, false, Callback.spawnEnemy⟩] :=
  (on_enemy_collision_spawn sampleCollisionScene 1 [7] (by decide)).1 (by decide)

/-- **C7.** For every world point `p`,
`GridPos.from_world ((GridPos.from_world p).to_world) = GridPos.from_world p`:
converting a point to a grid cell, mapping the cell back to its world-space
minimum corner, and re-converting yields the same cell. -/
theorem from_world_to_world_idempotent (p : Point) :
    GridPos.from_world (GridPos.to_world (GridPos.from_world p)) =
      GridPos.from_world p := by
  unfold GridPos.from_world GridPos.to_world
  simp only [floor_corner_div]

theorem cameraApply_sans (delta : ℚ) (s : Scene) (cam : ℕ) :
    sceneSansTransforms (cameraApply delta s cam) = sceneSansTransforms s := by
  unfold cameraApply
  split <;> rfl

theorem cameraFold_sans (delta : ℚ) (l : List ℕ) (s : Scene) :
    sceneSansTransforms (cameraFold delta l s) = sceneSansTransforms s := by
  induction l generalizing s with
  | nil => rfl
  | cons c rest ih => rw [cameraFold, ih, cameraApply_sans]

theorem cameraStep_sans (s : Scene) (delta : ℚ) :
    sceneSansTransforms (cameraStep s delta) = sceneSansTransforms s :=
  cameraFold_sans delta s.cameras s

theorem cameraStep_game (s : Scene) (delta : ℚ) :
    (cameraStep s delta).game = s.game :=
  congrArg (fun t => t.1) (cameraStep_sans s delta)

theorem cameraStep_units (s : Scene) (delta : ℚ) :
    (cameraStep s delta).units = s.units :=
  congrArg (fun t => t.2.1) (cameraStep_sans s delta)

theorem cameraStep_meshes (s : Scene) (delta : ℚ) :
    (cameraStep s delta).meshes = s.meshes :=
  congrArg (fun t => t.2.2.1) (cameraStep_sans s delta)

theorem cameraStep_alarms (s : Scene) (delta : ℚ) :
    (cameraStep s delta).alarms = s.alarms :=
  congrArg (fun t => t.2.2.2.1) (cameraStep_sans s delta)

theorem cameraStep_nextEntity (s : Scene) (delta : ℚ) :
    (cameraStep s delta).nextEntity = s.nextEntity :=
  congrArg (fun t => t.2.2.2.2.2.2.2.1) (cameraStep_sans s delta)

/-- The upgrade block never touches the grid map. -/
theorem upgradeStep_grid (s : Scene) (inp : Input) :
    (upgradeStep s inp).game.grid = s.game.grid := by
  unfold upgradeStep
  repeat' split
  all_goals rfl

/-- The upgrade block never creates an entity. -/
theorem upgradeStep_nextEntity (s : Scene) (inp : Input) :
    (upgradeStep s inp).nextEntity = s.nextEntity := by
  unfold upgradeStep
  repeat' split
  all_goals rfl

/-- The upgrade block never touches meshes. -/
theorem upgradeStep_meshes (s : Scene) (inp : Input) :
    (upgradeStep s inp).meshes = s.meshes := by
  unfold upgradeStep
  repeat' split
  all_goals rfl

/-- The upgrade block never schedules an alarm. -/
theorem upgradeStep_alarms (s : Scene) (inp : Input) :
    (upgradeStep s inp).alarms = s.alarms := by
  unfold upgradeStep
  repeat' split
  all_goals rfl

/-- With no resource the placement guard fails and the block is a no-op. -/
theorem placementStep_no_resource (s : Scene) (inp : Input)
    (h : s.game.resource_count = 0) : placementStep s inp = s := by
  unfold placementStep
  rw [if_neg]
  rintro ⟨hr, -⟩
  omega

/-- With no resource the upgrade guard fails and the block is a no-op. -/
theorem upgradeStep_no_resource (s : Scene) (inp : Input)
    (h : s.game.resource_count = 0) : upgradeStep s inp = s := by
  unfold upgradeStep
  rw [if_neg]
  rintro ⟨hr, -⟩
  omega

/-- The placement block keeps the resource count non-negative: the decrement
is guarded by `resource_count > 0`. -/
theorem placementStep_resource_nonneg (s : Scene) (inp : Input)
    (h : 0 ≤ s.game.resource_count) :
    0 ≤ (placementStep s inp).game.resource_count := by
  unfold placementStep
  by_cases hg : 0 < s.game.resource_count ∧ inp.mouse0 = true
  · rw [if_pos hg]
    by_cases ho : (alistFind s.game.selected s.game.grid).isSome
    · rw [if_pos ho]; exact h
    · rw [if_neg ho]
      show 0 ≤ s.game.resource_count - 1
      omega
  · rw [if_neg hg]; exact h

/-- The upgrade block keeps the resource count non-negative: both decrement
sites are guarded by `resource_count > 0`. -/
theorem upgradeStep_resource_nonneg (s : Scene) (inp : Input)
    (h : 0 ≤ s.game.resource_count) :
    0 ≤ (upgradeStep s inp).game.resource_count := by
  unfold upgradeStep
  split
  · rename_i hg
    obtain ⟨hr, -⟩ := hg
    split
    · split
      · show 0 ≤ s.game.resource_count - 1
        omega
      · show 0 ≤ s.game.resource_count - 1
        omega
      · exact h
    · exact h
  · exact h

/-- **C8.** `enemy_update` applies the loop body to every enemy; for each
enemy the movement direction is the normalized vector from its position to
the base cell's center; when that distance is exactly zero the
normalization fails safe to the zero vector (no division by zero) and the
position is unchanged, and otherwise the enemy is translated by
`direction * ENEMY_MOVE_SPEED * delta`. -/
theorem enemy_update_direction_safe (delta : ℝ) (pos : PointR)
    (l : List PointR) :
    enemy_update delta l = l.map (enemyMoveStep delta)
    ∧ enemyMoveStep delta pos =
        pos.add (PointR.smul ((ENEMY_MOVE_SPEED : ℝ) * delta)
          (PointR.sub (toR (GridPos.cell_center (GridPos.new 0 0))) pos).normalized)
    ∧ ((PointR.sub (toR (GridPos.cell_center (GridPos.new 0 0))) pos).magnitude = 0 →
        (PointR.sub (toR (GridPos.cell_center (GridPos.new 0 0))) pos).normalized
            = PointR.zero
        ∧ enemyMoveStep delta pos = pos) := by
  refine ⟨rfl, rfl, fun h => ?_⟩
  have hn : (PointR.sub (toR (GridPos.cell_center (GridPos.new 0 0))) pos).normalized
      = PointR.zero := by
    unfold PointR.normalized
    rw [if_pos h]
  refine ⟨hn, ?_⟩
  simp only [enemyMoveStep]
  rw [hn]
  cases pos with
  | mk x y z => simp [PointR.add, PointR.smul, PointR.zero]

/-- Witness for C8: an enemy standing exactly at the base cell's center has
a zero-length direction and does not move. -/
theorem enemy_update_direction_safe_witness :
    enemyMoveStep 1 (toR (GridPos.cell_center (GridPos.new 0 0))) =
      toR (GridPos.cell_center (GridPos.new 0 0)) :=
  ((enemy_update_direction_safe 1 (toR (GridPos.cell_center (GridPos.new 0 0)))
    []).2.2 (by
      have hsub : PointR.sub (toR (GridPos.cell_center (GridPos.new 0 0)))
          (toR (GridPos.cell_center (GridPos.new 0 0))) = PointR.zero := by
        simp [PointR.sub, PointR.zero]
      rw [hsub]
      simp [PointR.magnitude, PointR.zero])).2

/-- **C3.** When the primary button is pressed but the (cursor-updated)
selected cell is already a key of the grid, the placement block is an
all-or-nothing no-op — the scene it returns is exactly the scene it
received (so neither `grid` nor `resource_count` nor any store changes and
no entity is created) — and over the whole `manager_update` invocation the
grid is unchanged and no entity is created. -/
theorem placement_occupied_noop (s : Scene) (inp : Input) (delta : ℚ)
    (hbtn : inp.mouse0 = true)
    (hocc : (alistFind (cursorStep s inp).game.selected
        (cursorStep s inp).game.grid).isSome = true) :
    placementStep (cursorStep s inp) inp = cursorStep s inp
    ∧ (manager_update s inp delta).game.grid = s.game.grid
    ∧ (manager_update s inp delta).nextEntity = s.nextEntity := by
  have hid : placementStep (cursorStep s inp) inp = cursorStep s inp := by
    unfold placementStep
    by_cases hg : 0 < (cursorStep s inp).game.resource_count ∧ inp.mouse0 = true
    · rw [if_pos hg, if_pos hocc]
    · rw [if_neg hg]
  refine ⟨hid, ?_, ?_⟩
  · unfold manager_update
    rw [hid, cameraStep_game, upgradeStep_grid]
    rfl
  · unfold manager_update
    rw [hid, cameraStep_nextEntity, upgradeStep_nextEntity]
    rfl

/-- Witness for C3: clicking the occupied base cell (0,0) leaves the scene
entering the placement block unchanged. -/
theorem placement_occupied_noop_witness :
    placementStep (cursorStep baseScene clickInput) clickInput
      = cursorStep baseScene clickInput :=
  (placement_occupied_noop baseScene clickInput 1 rfl (by
      simp [cursorStep, Point.add, GridPos.from_world, alistFind, baseScene,
        clickInput, MOUSE_SPEED, CELL_SIZE, ratFloor_eq_intFloor])).1

/-- **C4.** With the secondary button pressed, resource available and the
selected cell occupied by a `Base` of level `L`, the upgrade block bumps
the base's level to exactly `L + 1`, sets its transform scale uniformly to
`(L + 1) * CELL_SIZE * BASE_SCALE_PER_LEVEL` on all three axes, and
decrements `resource_count` by exactly 1. -/
theorem upgrade_base_level_scale (s : Scene) (inp : Input) (e : ℕ) (L : ℕ)
    (t : Transform)
    (hres : 0 < s.game.resource_count) (hbtn : inp.mouse1 = true)
    (hgrid : alistFind s.game.selected s.game.grid = some e)
    (hunit : alistFind e s.units = some (PlayerUnit.base L))
    (ht : alistFind e s.transforms = some t) :
    alistFind e (upgradeStep s inp).units = some (PlayerUnit.base (L + 1))
    ∧ alistFind e (upgradeStep s inp).transforms
        = some { t with scale := baseScale (L + 1) }
    ∧ (upgradeStep s inp).game.resource_count = s.game.resource_count - 1 := by
  have hstep : upgradeStep s inp =
      { s with
        units := alistInsert e (PlayerUnit.base (L + 1)) s.units
        transforms := alistAdjust e
          (fun t0 => { t0 with scale := baseScale (L + 1) }) s.transforms
        game := { s.game with resource_count := s.game.resource_count - 1 } } := by
    unfold upgradeStep
    rw [if_pos ⟨hres, hbtn⟩]
    simp only [hgrid, hunit]
  rw [hstep]
  refine ⟨alistFind_insert_self _ _ _, ?_, rfl⟩
  show alistFind e (alistAdjust e
      (fun t0 => { t0 with scale := baseScale (L + 1) }) s.transforms)
    = some { t with scale := baseScale (L + 1) }
  rw [alistFind_adjust_self, ht]
  rfl

/-- Witness for C4: upgrading the level-1 base at (0,0) yields level 2,
uniform scale `baseScale 2`, and one fewer resource. -/
theorem upgrade_base_level_scale_witness :
    alistFind 3 (upgradeStep baseScene upgradeInput).units
        = some (PlayerUnit.base 2)
    ∧ alistFind 3 (upgradeStep baseScene upgradeInput).transforms
        = some { baseTransform with scale := baseScale 2 }
    ∧ (upgradeStep baseScene upgradeInput).game.resource_count
        = baseScene.game.resource_count - 1 :=
  upgrade_base_level_scale baseScene upgradeInput 3 1 baseTransform
    (by decide) rfl rfl rfl rfl

/-- **C5.** `resource_count` never goes negative: both decrement sites in
`manager_update` are guarded by `resource_count > 0`, so a frame starting
with a non-negative counter ends with a non-negative counter. -/
theorem resource_count_never_negative (s : Scene) (inp : Input) (delta : ℚ)
    (h : 0 ≤ s.game.resource_count) :
    0 ≤ (manager_update s inp delta).game.resource_count := by
  have h1 : 0 ≤ (cursorStep s inp).game.resource_count := h
  have h2 := placementStep_resource_nonneg (cursorStep s inp) inp h1
  have h3 := upgradeStep_resource_nonneg (placementStep (cursorStep s inp) inp)
    inp h2
  unfold manager_update
  rw [cameraStep_game]
  exact h3

/-- Witness for C5 on a concrete frame. -/
theorem resource_count_never_negative_witness :
    0 ≤ (manager_update baseScene clickInput 1).game.resource_count :=
  resource_count_never_negative baseScene clickInput 1 (by decide)

/-- **C6.** With `resource_count == 0`, pressing the primary button changes
nothing: the frame's outcome is identical whether or not button 0 is
pressed, and the whole invocation creates no entity and leaves the grid,
unit, mesh and alarm stores and the resource counter unchanged. -/
theorem zero_resource_primary_noop (s : Scene) (inp : Input) (delta : ℚ)
    (h : s.game.resource_count = 0) :
    manager_update s { inp with mouse0 := true } delta
        = manager_update s { inp with mouse0 := false } delta
    ∧ (manager_update s inp delta).nextEntity = s.nextEntity
    ∧ (manager_update s inp delta).game.grid = s.game.grid
    ∧ (manager_update s inp delta).units = s.units
    ∧ (manager_update s inp delta).meshes = s.meshes
    ∧ (manager_update s inp delta).alarms = s.alarms
    ∧ (manager_update s inp delta).game.resource_count = 0 := by
  have hstrip : ∀ inp' : Input,
      manager_update s inp' delta = cameraStep (cursorStep s inp') delta := by
    intro inp'
    have hc : (cursorStep s inp').game.resource_count = 0 := h
    unfold manager_update
    rw [placementStep_no_resource _ _ hc, upgradeStep_no_resource _ _ hc]
  refine ⟨?_, ?_, ?_, ?_, ?_, ?_, ?_⟩
  · rw [hstrip, hstrip]
    rfl
  · rw [hstrip, cameraStep_nextEntity]
    rfl
  · rw [hstrip, cameraStep_game]
    rfl
  · rw [hstrip, cameraStep_units]
    rfl
  · rw [hstrip, cameraStep_meshes]
    rfl
  · rw [hstrip, cameraStep_alarms]
    rfl
  · rw [hstrip, cameraStep_game]
    exact h

/-- Witness for C6 on a concrete frame with zero resource. -/
theorem zero_resource_primary_noop_witness :
    (manager_update brokeScene clickInput 1).game.resource_count = 0 :=
  (zero_resource_primary_noop brokeScene clickInput 1 rfl).2.2.2.2.2.2

/-- **C10.** Starting a frame with exactly one resource, when the placement
succeeds (primary pressed, cell free) the upgrade guard re-reads the
now-zero counter and does not fire even with the secondary button pressed:
the frame ends at resource 0 (a decrease of exactly one), the unit store is
exactly what placement left (the upgrade branch did not execute), and the
freshly placed turret still has level 1. -/
theorem placement_single_decrement (s : Scene) (inp : Input) (delta : ℚ)
    (hres : s.game.resource_count = 1)
    (h0 : inp.mouse0 = true) (h1 : inp.mouse1 = true)
    (hfree : alistFind (cursorStep s inp).game.selected
        (cursorStep s inp).game.grid = none) :
    (manager_update s inp delta).game.resource_count = 0
    ∧ (manager_update s inp delta).units
        = (placementStep (cursorStep s inp) inp).units
    ∧ alistFind s.nextEntity (manager_update s inp delta).units
        = some (PlayerUnit.turret 1 s.nextAlarmId none) := by
  have hres1 : (cursorStep s inp).game.resource_count = 1 := hres
  have hguard : 0 < (cursorStep s inp).game.resource_count
      ∧ inp.mouse0 = true := by
    refine ⟨?_, h0⟩
    rw [hres1]
    norm_num
  have hnotocc : ¬((alistFind (cursorStep s inp).game.selected
      (cursorStep s inp).game.grid).isSome = true) := by
    rw [hfree]
    simp
  have hP : (placementStep (cursorStep s inp) inp).game.resource_count
      = (cursorStep s inp).game.resource_count - 1 := by
    unfold placementStep
    rw [if_pos hguard, if_neg hnotocc]
  have hU : (placementStep (cursorStep s inp) inp).units
      = alistInsert (cursorStep s inp).nextEntity
          (PlayerUnit.turret 1 (cursorStep s inp).nextAlarmId none)
          (cursorStep s inp).units := by
    unfold placementStep
    rw [if_pos hguard, if_neg hnotocc]
  have hP0 : (placementStep (cursorStep s inp) inp).game.resource_count = 0 := by
    rw [hP, hres1]
    norm_num
  have hupg : upgradeStep (placementStep (cursorStep s inp) inp) inp
      = placementStep (cursorStep s inp) inp :=
    upgradeStep_no_resource _ _ hP0
  refine ⟨?_, ?_, ?_⟩
  · unfold manager_update
    rw [cameraStep_game, hupg]
    exact hP0
  · unfold manager_update
    rw [cameraStep_units, hupg]
  · unfold manager_update
    rw [cameraStep_units, hupg, hU]
    exact alistFind_insert_self _ _ _

/-- Witness for C10: one resource, both buttons pressed on a free cell. -/
theorem placement_single_decrement_witness :
    (manager_update lastCoinScene bothInput 1).game.resource_count = 0 :=
  (placement_single_decrement lastCoinScene bothInput 1 rfl rfl rfl rfl).1

end LD34
